import Mathlib

/-!
Shallow embedding of the chatbot backend core (src/backend/main.py,
src/backend/models.py, src/backend/openai_client.py).

Conventions of the embedding:
  * The database is an explicit record of lists (`DB`); SQLAlchemy queries
    become list `filter`/`find?`/sort operations.
  * Wall-clock time is a monotone `Nat` counter `DB.clock`: each row
    insertion consumes one tick, mirroring `datetime` column defaults.
  * `HTTPException` becomes `Except HTTPError`.
  * The password hashing and verification primitives (`auth.py`, a
    capability interface in the spec) are opaque function parameters.
  * The external model call is an opaque parameter
    `callModel : List CtxMsg → Except String String`; the string-wrapping
    of failures is `generate_response` (src/backend/openai_client.py).
-/

/-- Row of the `users` table (fields used by the core). -/
structure User where
  id : Nat
  username : String
  email : String
  hashed_password : String
  created_at : Nat
deriving DecidableEq, Repr

/-- Row of the `conversations` table. -/
structure Conversation where
  id : Nat
  user_id : Nat
  title : String
  created_at : Nat
  updated_at : Nat
deriving DecidableEq, Repr

/-- Row of the `messages` table. -/
structure Message where
  id : Nat
  conversation_id : Nat
  role : String
  content : String
  created_at : Nat
deriving DecidableEq, Repr

/-- The persistent store plus id/time sources. -/
structure DB where
  users : List User
  conversations : List Conversation
  messages : List Message
  nextUserId : Nat
  nextConvId : Nat
  nextMsgId : Nat
  clock : Nat
deriving DecidableEq, Repr

/-- An `HTTPException(status_code, detail)`. -/
structure HTTPError where
  status_code : Nat
  detail : String
deriving DecidableEq, Repr

/-- `UserResponse` (src/backend/models.py:10-17): the registration/"me"
response shape; it has no password-digest field. -/
structure UserResponse where
  id : Nat
  username : String
  email : String
  created_at : Nat
deriving DecidableEq, Repr

/-- `Token` (src/backend/models.py:23-25). -/
structure Token where
  access_token : String
  token_type : String
deriving DecidableEq, Repr

/-- `ChatRequest` (src/backend/models.py:53-55): `conversation_id` is
`Optional[int]`. -/
structure ChatRequest where
  message : String
  conversation_id : Option Nat
deriving DecidableEq, Repr

/-- `ChatResponse` (src/backend/models.py:57-60). -/
structure ChatResponse where
  message : String
  conversation_id : Nat
  message_id : Nat
deriving DecidableEq, Repr

/-- One element of the list handed to the OpenAI client: the
`{"role": ..., "content": ...}` dict built in src/backend/main.py:122-127. -/
structure CtxMsg where
  role : String
  content : String
deriving DecidableEq, Repr

/-- Ascending `created_at` order on messages (`order_by(Message.created_at)`,
src/backend/main.py:119). -/
def msgAsc (a b : Message) : Prop := a.created_at ≤ b.created_at

instance : DecidableRel msgAsc := fun a b =>
  inferInstanceAs (Decidable (a.created_at ≤ b.created_at))

instance : IsTotal Message msgAsc :=
  ⟨fun a b => Nat.le_total a.created_at b.created_at⟩

instance : IsTrans Message msgAsc :=
  ⟨fun _ _ _ h1 h2 => Nat.le_trans h1 h2⟩

/-- Descending `updated_at` order on conversations
(`order_by(Conversation.updated_at.desc())`, src/backend/main.py:71). -/
def convDesc (a b : Conversation) : Prop := b.updated_at ≤ a.updated_at

instance : DecidableRel convDesc := fun a b =>
  inferInstanceAs (Decidable (b.updated_at ≤ a.updated_at))

instance : IsTotal Conversation convDesc :=
  ⟨fun a b => Nat.le_total b.updated_at a.updated_at⟩

instance : IsTrans Conversation convDesc :=
  ⟨fun _ _ _ h1 h2 => Nat.le_trans h2 h1⟩

/-- `register` (src/backend/main.py:26-47): username uniqueness checked
first, then email; on success the user row stores `hash(password)` and the
response is the `UserResponse` projection of the new row. -/
def register (db : DB) (hash : String → String)
    (username email password : String) : Except HTTPError (UserResponse × DB) :=
  if (db.users.find? (fun u => u.username == username)).isSome then
    Except.error (HTTPError.mk 400 "Username already registered")
  else if (db.users.find? (fun u => u.email == email)).isSome then
    Except.error (HTTPError.mk 400 "Email already registered")
  else
    let u : User := User.mk db.nextUserId username email (hash password) db.clock
    Except.ok (UserResponse.mk u.id u.username u.email u.created_at,
      { db with users := db.users ++ [u],
                nextUserId := db.nextUserId + 1,
                clock := db.clock + 1 })

/-- `login` (src/backend/main.py:49-63): `if not db_user or not
verify_password(...)` raises one and the same 401; `sign` stands for
`create_access_token` (auth.py, a capability interface in the spec). -/
def login (db : DB) (verify : String → String → Bool)
    (sign : String → String) (username password : String) :
    Except HTTPError Token :=
  match db.users.find? (fun u => u.username == username) with
  | none => Except.error (HTTPError.mk 401 "Incorrect username or password")
  | some u =>
      if verify password u.hashed_password then
        Except.ok (Token.mk (sign u.username) "bearer")
      else
        Except.error (HTTPError.mk 401 "Incorrect username or password")

/-- `get_conversations` (src/backend/main.py:69-72): filter by owner,
order by `updated_at` descending. -/
def get_conversations (db : DB) (uid : Nat) : List Conversation :=
  List.insertionSort convDesc (db.conversations.filter (fun c => c.user_id == uid))

/-- `get_conversation` (src/backend/main.py:82-90): the query filters on
both the id and the owner; an empty result is a single 404. -/
def get_conversation (db : DB) (cid uid : Nat) : Except HTTPError Conversation :=
  match db.conversations.find? (fun c => c.id == cid && c.user_id == uid) with
  | some c => Except.ok c
  | none => Except.error (HTTPError.mk 404 "Conversation not found")

/-- Python truthiness of `request.conversation_id`
(src/backend/main.py:95): `None` and `0` are both falsy. -/
def truthy : Option Nat → Bool
  | none => false
  | some n => n != 0

/-- Modelled from the spec: the default placeholder title of a fresh
conversation. The column default lives in `database.py`, which is not under
src/; §4.3 of the spec says "title set to a default placeholder", and
`ConversationCreate` (src/backend/models.py:40-41) uses this string. -/
def defaultTitle : String := "New Conversation"

/-- `Conversation(user_id=...)` + `db.add/commit/refresh`
(src/backend/main.py:74-80 and 102-106): a fresh row with the next id,
default title and `created_at = updated_at = now`. -/
def createConversation (db : DB) (uid : Nat) : Conversation × DB :=
  let c : Conversation := Conversation.mk db.nextConvId uid defaultTitle db.clock db.clock
  (c, { db with conversations := db.conversations ++ [c],
                nextConvId := db.nextConvId + 1,
                clock := db.clock + 1 })

/-- The get-or-create step of `chat` (src/backend/main.py:94-106). -/
def resolveConv (db : DB) (uid : Nat) (cid : Option Nat) :
    Except HTTPError (Conversation × DB) :=
  if truthy cid then
    match db.conversations.find? (fun c => c.id == cid.getD 0 && c.user_id == uid) with
    | some c => Except.ok (c, db)
    | none => Except.error (HTTPError.mk 404 "Conversation not found")
  else
    Except.ok (createConversation db uid)

/-- `Message(...)` + `db.add/commit/refresh` (src/backend/main.py:109-116
and 133-140). Modelled from the spec: the bump of the parent conversation's
`updated_at` (`Touch`) — `database.py` is not under src/; §4.3 of the spec
says `Touch(conversationId)` sets `updated_at = now` and is "invoked on
every message append". -/
def appendMessage (db : DB) (cid : Nat) (role content : String) : Message × DB :=
  let m : Message := Message.mk db.nextMsgId cid role content db.clock
  (m, { db with messages := db.messages ++ [m],
                nextMsgId := db.nextMsgId + 1,
                clock := db.clock + 1,
                conversations := db.conversations.map (fun c =>
                  if c.id == cid then { c with updated_at := db.clock } else c) })

/-- The history query of `chat` (src/backend/main.py:119): all messages of
the conversation, ascending `created_at`. -/
def listByConversation (db : DB) (cid : Nat) : List Message :=
  List.insertionSort msgAsc (db.messages.filter (fun m => m.conversation_id == cid))

/-- `conversation.title = ...` + `db.commit()` (src/backend/main.py:144-145):
updates the title of the row(s) with the given id. -/
def setTitle (db : DB) (cid : Nat) (t : String) : DB :=
  { db with conversations := db.conversations.map (fun c =>
      if c.id == cid then { c with title := t } else c) }

/-- `OpenAIClient.generate_response` (src/backend/openai_client.py:11-21):
any exception from the underlying API call is swallowed and turned into the
failure-notice string. -/
def generate_response (result : Except String String) : String :=
  match result with
  | Except.ok content => content
  | Except.error e => "Sorry, I encountered an error: " ++ e

/-- Result of one successful chat turn. `response` and `db` are the
observable outcome (src/backend/main.py:147-151); `context`, `userMsg` and
`aiMsg` record the turn's intermediates (the list handed to the model and
the two rows inserted) so that theorems can speak about them. -/
structure ChatOk where
  response : ChatResponse
  db : DB
  context : List CtxMsg
  userMsg : Message
  aiMsg : Message
deriving DecidableEq, Repr

/-- The body of `chat` after the conversation is resolved
(src/backend/main.py:108-151): append the user turn, query the full
history, project it, invoke the model (failures folded into a notice by
`generate_response`), append the assistant turn, and set the title iff the
history right after the user append has length 1. -/
def chatTurn (db0 : DB) (conversation : Conversation) (messageText : String)
    (callModel : List CtxMsg → Except String String) : ChatOk :=
  let p1 := appendMessage db0 conversation.id "user" messageText
  let user_message := p1.1
  let db1 := p1.2
  let messages := listByConversation db1 conversation.id
  let openai_messages := messages.map (fun m => CtxMsg.mk m.role m.content)
  let ai_response := generate_response (callModel openai_messages)
  let p2 := appendMessage db1 conversation.id "assistant" ai_response
  let ai_message := p2.1
  let db2 := p2.2
  let db3 := if messages.length == 1 then
      setTitle db2 conversation.id
        (if messageText.length > 50 then messageText.take 50 ++ "..." else messageText)
    else db2
  ChatOk.mk (ChatResponse.mk ai_response conversation.id ai_message.id)
    db3 openai_messages user_message ai_message

/-- `chat` (src/backend/main.py:92-151). -/
def chat (db : DB) (uid : Nat) (req : ChatRequest)
    (callModel : List CtxMsg → Except String String) : Except HTTPError ChatOk :=
  match resolveConv db uid req.conversation_id with
  | Except.error e => Except.error e
  | Except.ok (conversation, db0) =>
      Except.ok (chatTurn db0 conversation req.message callModel)

/-- Observation helper: the first conversation row with the given id. -/
def findConv (db : DB) (cid : Nat) : Option Conversation :=
  db.conversations.find? (fun c => c.id == cid)

/-! ### Unfolding lemmas for the persistence operations -/

theorem appendMessage_fst (db : DB) (cid : Nat) (role content : String) :
    (appendMessage db cid role content).1 =
      Message.mk db.nextMsgId cid role content db.clock := rfl

theorem appendMessage_messages (db : DB) (cid : Nat) (role content : String) :
    (appendMessage db cid role content).2.messages =
      db.messages ++ [(appendMessage db cid role content).1] := rfl

theorem appendMessage_conversations (db : DB) (cid : Nat) (role content : String) :
    (appendMessage db cid role content).2.conversations =
      db.conversations.map (fun c =>
        if c.id == cid then { c with updated_at := db.clock } else c) := rfl

theorem appendMessage_clock (db : DB) (cid : Nat) (role content : String) :
    (appendMessage db cid role content).2.clock = db.clock + 1 := rfl

theorem appendMessage_nextMsgId (db : DB) (cid : Nat) (role content : String) :
    (appendMessage db cid role content).2.nextMsgId = db.nextMsgId + 1 := rfl

theorem setTitle_messages (db : DB) (cid : Nat) (t : String) :
    (setTitle db cid t).messages = db.messages := rfl

/-- Mapping an id-preserving row update over the table commutes with
looking a row up by id. -/
theorem find?_id_map (l : List Conversation) (cid : Nat)
    (f : Conversation → Conversation) (hid : ∀ c, (f c).id = c.id) :
    (l.map f).find? (fun c => c.id == cid) =
      (l.find? (fun c => c.id == cid)).map f := by
  rw [List.find?_map]
  have hp : ((fun c => c.id == cid) ∘ f) = (fun c : Conversation => c.id == cid) := by
    funext c
    simp [Function.comp, hid]
  rw [hp]

theorem findConv_setTitle (db : DB) (cid : Nat) (t : String) :
    findConv (setTitle db cid t) cid =
      (findConv db cid).map (fun c => { c with title := t }) := by
  show (db.conversations.map _).find? _ = _
  rw [find?_id_map _ _ _ (fun c => by by_cases h : c.id == cid <;> simp [h])]
  unfold findConv
  cases hf : db.conversations.find? (fun c => c.id == cid) with
  | none => rfl
  | some c =>
      have hc : c.id = cid := by simpa using List.find?_some hf
      simp [hc]

theorem findConv_appendMessage (db : DB) (cid : Nat) (role content : String) :
    findConv (appendMessage db cid role content).2 cid =
      (findConv db cid).map (fun c => { c with updated_at := db.clock }) := by
  show (db.conversations.map _).find? _ = _
  rw [find?_id_map _ _ _ (fun c => by by_cases h : c.id == cid <;> simp [h])]
  unfold findConv
  cases hf : db.conversations.find? (fun c => c.id == cid) with
  | none => rfl
  | some c =>
      have hc : c.id = cid := by simpa using List.find?_some hf
      simp [hc]

/-- A row with an id other than the touched one is looked up unchanged. -/
theorem findConv_appendMessage_ne (db : DB) (cid cid' : Nat) (hne : cid' ≠ cid)
    (role content : String) :
    findConv (appendMessage db cid role content).2 cid' = findConv db cid' := by
  show (db.conversations.map _).find? _ = _
  rw [find?_id_map _ _ _ (fun c => by by_cases h : c.id == cid <;> simp [h])]
  unfold findConv
  cases hf : db.conversations.find? (fun c => c.id == cid') with
  | none => rfl
  | some c =>
      have hc : c.id = cid' := by simpa using List.find?_some hf
      have hcc : (c.id == cid) = false := by
        rw [hc]
        simpa using hne
      simp [hcc]
      intro h
      exact absurd h (by simpa using hcc)

theorem findConv_isSome_of_mem {db : DB} {c : Conversation}
    (h : c ∈ db.conversations) : (findConv db c.id).isSome := by
  unfold findConv
  rw [List.find?_isSome]
  exact ⟨c, h, by simp⟩

/-- Row updates that keep both the id and the title fixed do not change the
id-to-title association of the table. -/
theorem idTitle_map (l : List Conversation) (f : Conversation → Conversation)
    (hf : ∀ c, (f c).id = c.id ∧ (f c).title = c.title) :
    (l.map f).map (fun c => (c.id, c.title)) = l.map (fun c => (c.id, c.title)) := by
  rw [List.map_map]
  apply List.map_congr_left
  intro c _
  simp [Function.comp, (hf c).1, (hf c).2]

/-! ### Unfolding lemmas for the chat turn -/

theorem chatTurn_userMsg (db0 : DB) (conv : Conversation) (msg : String)
    (f : List CtxMsg → Except String String) :
    (chatTurn db0 conv msg f).userMsg =
      Message.mk db0.nextMsgId conv.id "user" msg db0.clock := rfl

theorem chatTurn_context (db0 : DB) (conv : Conversation) (msg : String)
    (f : List CtxMsg → Except String String) :
    (chatTurn db0 conv msg f).context =
      (listByConversation (appendMessage db0 conv.id "user" msg).2 conv.id).map
        (fun m => CtxMsg.mk m.role m.content) := rfl

theorem chatTurn_aiMsg (db0 : DB) (conv : Conversation) (msg : String)
    (f : List CtxMsg → Except String String) :
    (chatTurn db0 conv msg f).aiMsg =
      Message.mk (db0.nextMsgId + 1) conv.id "assistant"
        (generate_response (f (chatTurn db0 conv msg f).context)) (db0.clock + 1) := rfl

theorem chatTurn_response (db0 : DB) (conv : Conversation) (msg : String)
    (f : List CtxMsg → Except String String) :
    (chatTurn db0 conv msg f).response =
      ChatResponse.mk (generate_response (f (chatTurn db0 conv msg f).context))
        conv.id (db0.nextMsgId + 1) := rfl

/-- The final store of a chat turn, with the title branch exposed. -/
theorem chatTurn_db_def (db0 : DB) (conv : Conversation) (msg : String)
    (f : List CtxMsg → Except String String) :
    (chatTurn db0 conv msg f).db =
      (if (chatTurn db0 conv msg f).context.length == 1 then
        setTitle (appendMessage (appendMessage db0 conv.id "user" msg).2 conv.id "assistant"
            (generate_response (f (chatTurn db0 conv msg f).context))).2 conv.id
          (if msg.length > 50 then msg.take 50 ++ "..." else msg)
      else (appendMessage (appendMessage db0 conv.id "user" msg).2 conv.id "assistant"
            (generate_response (f (chatTurn db0 conv msg f).context))).2) := by
  unfold chatTurn
  dsimp only
  rw [List.length_map]

theorem chatTurn_db_messages (db0 : DB) (conv : Conversation) (msg : String)
    (f : List CtxMsg → Except String String) :
    (chatTurn db0 conv msg f).db.messages =
      db0.messages ++ [(chatTurn db0 conv msg f).userMsg, (chatTurn db0 conv msg f).aiMsg] := by
  rw [chatTurn_db_def]
  split <;>
    simp [setTitle_messages, appendMessage_messages, appendMessage_fst,
      chatTurn_userMsg, chatTurn_aiMsg, appendMessage_clock, appendMessage_nextMsgId]

theorem chatTurn_db_clock (db0 : DB) (conv : Conversation) (msg : String)
    (f : List CtxMsg → Except String String) :
    (chatTurn db0 conv msg f).db.clock = db0.clock + 2 := by
  rw [chatTurn_db_def]
  split <;> rfl

/-! ### Lemmas for the history query -/

theorem listByConversation_perm (db : DB) (cid : Nat) :
    (listByConversation db cid).Perm
      (db.messages.filter (fun m => m.conversation_id == cid)) :=
  List.perm_insertionSort _ _

theorem listByConversation_sorted (db : DB) (cid : Nat) :
    List.Sorted msgAsc (listByConversation db cid) :=
  List.sorted_insertionSort _ _

theorem listByConversation_length (db : DB) (cid : Nat) :
    (listByConversation db cid).length =
      (db.messages.filter (fun m => m.conversation_id == cid)).length :=
  (List.perm_insertionSort _ _).length_eq

/-- The context of a turn is one longer than the conversation's history
before the turn: exactly the appended user message is new. -/
theorem chatTurn_context_length (db0 : DB) (conv : Conversation) (msg : String)
    (f : List CtxMsg → Except String String) :
    (chatTurn db0 conv msg f).context.length =
      (db0.messages.filter (fun m => m.conversation_id == conv.id)).length + 1 := by
  rw [chatTurn_context, List.length_map, listByConversation_length,
    appendMessage_messages, List.filter_append]
  simp [appendMessage_fst]

/-! ### Elimination lemmas for conversation resolution and `chat` -/

theorem resolveConv_ok_elim {db : DB} {uid : Nat} {cid : Option Nat}
    {conv : Conversation} {db0 : DB}
    (h : resolveConv db uid cid = Except.ok (conv, db0)) :
    (truthy cid = true ∧ db0 = db ∧
       db.conversations.find? (fun c => c.id == cid.getD 0 && c.user_id == uid) = some conv) ∨
    (truthy cid = false ∧ (conv, db0) = createConversation db uid) := by
  unfold resolveConv at h
  by_cases ht : truthy cid
  · left
    rw [if_pos ht] at h
    cases hf : db.conversations.find? (fun c => c.id == cid.getD 0 && c.user_id == uid) with
    | none => rw [hf] at h; cases h
    | some c =>
        rw [hf] at h
        injection h with h2
        injection h2 with h3 h4
        subst h3
        exact ⟨ht, h4.symm, rfl⟩
  · right
    rw [if_neg ht] at h
    injection h with h2
    exact ⟨by simpa using ht, h2.symm⟩

/-- Facts about a successfully resolved conversation that hold in both the
lookup branch and the create branch. -/
theorem resolveConv_ok_facts {db : DB} {uid : Nat} {cid : Option Nat}
    {conv : Conversation} {db0 : DB}
    (h : resolveConv db uid cid = Except.ok (conv, db0)) :
    conv ∈ db0.conversations ∧ conv.user_id = uid ∧
      db0.messages = db.messages ∧ db.clock ≤ db0.clock := by
  rcases resolveConv_ok_elim h with ⟨_, hdb, hf⟩ | ⟨_, hc⟩
  · subst hdb
    have hmem := List.mem_of_find?_eq_some hf
    have hp := List.find?_some hf
    simp only [Bool.and_eq_true, beq_iff_eq] at hp
    exact ⟨hmem, hp.2, rfl, Nat.le_refl _⟩
  · have h1 : conv = (createConversation db uid).1 := by rw [← hc]
    have h2 : db0 = (createConversation db uid).2 := by rw [← hc]
    subst h1
    subst h2
    refine ⟨?_, rfl, rfl, Nat.le_succ _⟩
    show _ ∈ db.conversations ++ [_]
    simp [createConversation]

theorem chat_ok_elim {db : DB} {uid : Nat} {req : ChatRequest}
    {f : List CtxMsg → Except String String} {r : ChatOk}
    (h : chat db uid req f = Except.ok r) :
    ∃ conv db0, resolveConv db uid req.conversation_id = Except.ok (conv, db0) ∧
      r = chatTurn db0 conv req.message f := by
  unfold chat at h
  cases hres : resolveConv db uid req.conversation_id with
  | error e => rw [hres] at h; cases h
  | ok p =>
      obtain ⟨c, d⟩ := p
      rw [hres] at h
      injection h with h2
      exact ⟨c, d, rfl, h2.symm⟩

/-- The per-row touch update preserves id and title. -/
theorem touch_field_pres (cid t : Nat) (c : Conversation) :
    ((if c.id == cid then { c with updated_at := t } else c).id = c.id ∧
     (if c.id == cid then { c with updated_at := t } else c).title = c.title) := by
  by_cases h : c.id == cid <;> simp [h]

/-- On a first turn (history of length 1 right after the user append) the
conversation's title is set by the truncation rule of
src/backend/main.py:144. -/
theorem chatTurn_title_of_first (db0 : DB) (conv : Conversation) (msg : String)
    (f : List CtxMsg → Except String String)
    (h : (chatTurn db0 conv msg f).context.length = 1)
    (hex : (findConv db0 conv.id).isSome) :
    (findConv (chatTurn db0 conv msg f).db conv.id).map Conversation.title =
      some (if msg.length > 50 then msg.take 50 ++ "..." else msg) := by
  rw [chatTurn_db_def, if_pos (by simpa using h), findConv_setTitle,
    findConv_appendMessage, findConv_appendMessage]
  cases hf : findConv db0 conv.id with
  | none => rw [hf] at hex; simp at hex
  | some c => simp

/-- On any turn that is not a first turn, the id-to-title association of
the whole conversations table is unchanged. -/
theorem chatTurn_idTitle_of_not_first (db0 : DB) (conv : Conversation) (msg : String)
    (f : List CtxMsg → Except String String)
    (h : (chatTurn db0 conv msg f).context.length ≠ 1) :
    (chatTurn db0 conv msg f).db.conversations.map (fun c => (c.id, c.title)) =
      db0.conversations.map (fun c => (c.id, c.title)) := by
  rw [chatTurn_db_def, if_neg (by simpa using h),
    appendMessage_conversations, appendMessage_conversations,
    idTitle_map _ _ (touch_field_pres conv.id _),
    idTitle_map _ _ (touch_field_pres conv.id _)]

/-- After a chat turn the conversation's `updated_at` equals the time of
the assistant append, the turn's last write. -/
theorem chatTurn_updated_at (db0 : DB) (conv : Conversation) (msg : String)
    (f : List CtxMsg → Except String String)
    (hex : (findConv db0 conv.id).isSome) :
    (findConv (chatTurn db0 conv msg f).db conv.id).map Conversation.updated_at =
      some (db0.clock + 1) := by
  rw [chatTurn_db_def]
  split
  · rw [findConv_setTitle, findConv_appendMessage, findConv_appendMessage]
    cases hf : findConv db0 conv.id with
    | none => rw [hf] at hex; simp at hex
    | some c => simp [appendMessage_clock]
  · rw [findConv_appendMessage, findConv_appendMessage]
    cases hf : findConv db0 conv.id with
    | none => rw [hf] at hex; simp at hex
    | some c => simp [appendMessage_clock]

/-! ### A small concrete store used by the witnesses -/

/-- One user (id 1, `alice`) and one conversation (id 1) owned by the
distinct user id 2. -/
def dbEx : DB :=
  DB.mk
    [User.mk 1 "alice" "alice@example.com" "h-pw" 0]
    [Conversation.mk 1 2 "New Conversation" 1 1]
    [] 2 2 1 5

/-! ### Claims -/

/-- C3: `get_conversation` fails with the very same
`404 "Conversation not found"` both when no conversation with the requested
id exists (`cid1`) and when one exists but its owner differs from the
caller (`cid2`); the two failures are indistinguishable. -/
theorem get_conversation_notfound_uniform (db : DB) (uid cid1 cid2 : Nat)
    (h1 : ∀ c ∈ db.conversations, c.id ≠ cid1)
    (c2 : Conversation) (h2 : c2 ∈ db.conversations) (h2id : c2.id = cid2)
    (h3 : ∀ c ∈ db.conversations, c.id = cid2 → c.user_id ≠ uid) :
    get_conversation db cid1 uid = Except.error (HTTPError.mk 404 "Conversation not found") ∧
    get_conversation db cid2 uid = Except.error (HTTPError.mk 404 "Conversation not found") := by
  constructor
  · unfold get_conversation
    have hn : db.conversations.find? (fun c => c.id == cid1 && c.user_id == uid) = none := by
      rw [List.find?_eq_none]
      intro c hc
      simp only [Bool.and_eq_true, beq_iff_eq, not_and]
      intro hid
      exact absurd hid (h1 c hc)
    rw [hn]
  · unfold get_conversation
    have hn : db.conversations.find? (fun c => c.id == cid2 && c.user_id == uid) = none := by
      rw [List.find?_eq_none]
      intro c hc
      simp only [Bool.and_eq_true, beq_iff_eq, not_and]
      exact fun hid => h3 c hc hid
    rw [hn]

theorem get_conversation_notfound_uniform_witness :
    get_conversation dbEx 7 1 = Except.error (HTTPError.mk 404 "Conversation not found") ∧
    get_conversation dbEx 1 1 = Except.error (HTTPError.mk 404 "Conversation not found") :=
  get_conversation_notfound_uniform dbEx 1 7 1 (by decide)
    (Conversation.mk 1 2 "New Conversation" 1 1) (by decide) (by decide) (by decide)

/-- C4: a login attempt with an unknown username and a login attempt with a
known username but a password that fails verification produce exactly the
same `401 "Incorrect username or password"` error. -/
theorem login_error_uniform (db : DB) (verify : String → String → Bool)
    (sign : String → String) (u1 p1 u2 p2 : String)
    (h1 : ∀ u ∈ db.users, u.username ≠ u1)
    (usr : User)
    (h2 : db.users.find? (fun u => u.username == u2) = some usr)
    (h3 : verify p2 usr.hashed_password = false) :
    login db verify sign u1 p1 =
      Except.error (HTTPError.mk 401 "Incorrect username or password") ∧
    login db verify sign u2 p2 =
      Except.error (HTTPError.mk 401 "Incorrect username or password") ∧
    login db verify sign u1 p1 = login db verify sign u2 p2 := by
  have hnone : db.users.find? (fun u => u.username == u1) = none := by
    rw [List.find?_eq_none]
    intro u hu
    simpa using h1 u hu
  unfold login
  rw [hnone, h2]
  simp [h3]

theorem login_error_uniform_witness :
    login dbEx (fun _ _ => false) (fun _ => "tok") "bob" "x" =
      Except.error (HTTPError.mk 401 "Incorrect username or password") ∧
    login dbEx (fun _ _ => false) (fun _ => "tok") "alice" "wrong" =
      Except.error (HTTPError.mk 401 "Incorrect username or password") ∧
    login dbEx (fun _ _ => false) (fun _ => "tok") "bob" "x" =
      login dbEx (fun _ _ => false) (fun _ => "tok") "alice" "wrong" :=
  login_error_uniform dbEx (fun _ _ => false) (fun _ => "tok") "bob" "x" "alice" "wrong"
    (by decide) (User.mk 1 "alice" "alice@example.com" "h-pw" 0) (by decide) rfl

/-- C5: `register` fails with a 400 conflict when the username already
exists (checked first) or, independently, when the email already exists;
on success the stored row carries `hash(password)` — never the raw
password — and the caller gets the digest-free `UserResponse` projection
of the created row. -/
theorem register_spec (db : DB) (hash : String → String)
    (username email password : String) :
    ((∃ u ∈ db.users, u.username = username) →
       register db hash username email password =
         Except.error (HTTPError.mk 400 "Username already registered")) ∧
    ((∀ u ∈ db.users, u.username ≠ username) → (∃ u ∈ db.users, u.email = email) →
       register db hash username email password =
         Except.error (HTTPError.mk 400 "Email already registered")) ∧
    ((∀ u ∈ db.users, u.username ≠ username) → (∀ u ∈ db.users, u.email ≠ email) →
       register db hash username email password =
         Except.ok (UserResponse.mk db.nextUserId username email db.clock,
           { db with
             users := db.users ++ [User.mk db.nextUserId username email (hash password) db.clock],
             nextUserId := db.nextUserId + 1,
             clock := db.clock + 1 })) := by
  refine ⟨?_, ?_, ?_⟩
  · rintro ⟨u, hu, hname⟩
    unfold register
    have hs : (db.users.find? (fun u => u.username == username)).isSome := by
      rw [List.find?_isSome]
      exact ⟨u, hu, by simp [hname]⟩
    simp [hs]
  · rintro hn ⟨u, hu, hmail⟩
    unfold register
    have h1 : db.users.find? (fun u => u.username == username) = none := by
      rw [List.find?_eq_none]
      intro v hv
      simpa using hn v hv
    have h2 : (db.users.find? (fun u => u.email == email)).isSome := by
      rw [List.find?_isSome]
      exact ⟨u, hu, by simp [hmail]⟩
    simp [h1, h2]
  · intro hn he
    unfold register
    have h1 : db.users.find? (fun u => u.username == username) = none := by
      rw [List.find?_eq_none]
      intro v hv
      simpa using hn v hv
    have h2 : db.users.find? (fun u => u.email == email) = none := by
      rw [List.find?_eq_none]
      intro v hv
      simpa using he v hv
    simp [h1, h2]

theorem register_spec_witness :
    register dbEx (fun s => "h-" ++ s) "alice" "new@example.com" "pw" =
      Except.error (HTTPError.mk 400 "Username already registered") ∧
    register dbEx (fun s => "h-" ++ s) "bob" "alice@example.com" "pw" =
      Except.error (HTTPError.mk 400 "Email already registered") ∧
    register dbEx (fun s => "h-" ++ s) "bob" "bob@example.com" "pw" =
      Except.ok (UserResponse.mk dbEx.nextUserId "bob" "bob@example.com" dbEx.clock,
        { dbEx with
          users := dbEx.users ++ [User.mk dbEx.nextUserId "bob" "bob@example.com" ((fun s => "h-" ++ s) "pw") dbEx.clock],
          nextUserId := dbEx.nextUserId + 1,
          clock := dbEx.clock + 1 }) :=
  ⟨(register_spec dbEx (fun s => "h-" ++ s) "alice" "new@example.com" "pw").1
      ⟨User.mk 1 "alice" "alice@example.com" "h-pw" 0, by decide, rfl⟩,
   (register_spec dbEx (fun s => "h-" ++ s) "bob" "alice@example.com" "pw").2.1 (by decide)
      ⟨User.mk 1 "alice" "alice@example.com" "h-pw" 0, by decide, rfl⟩,
   (register_spec dbEx (fun s => "h-" ++ s) "bob" "bob@example.com" "pw").2.2
      (by decide) (by decide)⟩

/-- C8: `get_conversations` returns exactly the conversations owned by the
caller — a materialized list that is a permutation of the owner-filter of
the table — sorted by `updated_at` in descending order. -/
theorem get_conversations_spec (db : DB) (uid : Nat) :
    (get_conversations db uid).Perm
        (db.conversations.filter (fun c => c.user_id == uid)) ∧
    List.Sorted convDesc (get_conversations db uid) ∧
    (∀ c, c ∈ get_conversations db uid ↔ c ∈ db.conversations ∧ c.user_id = uid) := by
  refine ⟨List.perm_insertionSort _ _, List.sorted_insertionSort _ _, ?_⟩
  intro c
  unfold get_conversations
  rw [List.mem_insertionSort, List.mem_filter]
  simp

/-- C10: a chat request carrying `conversation_id = 0` behaves exactly like
a request with no `conversation_id` at all: the truthiness test of
src/backend/main.py:95 sends both to the create branch, so a fresh
conversation (id `db.nextConvId`) is created for the caller instead of a
404 lookup failure. -/
theorem chat_zero_conversation_id (db : DB) (uid : Nat) (msg : String)
    (f : List CtxMsg → Except String String) :
    chat db uid (ChatRequest.mk msg (some 0)) f = chat db uid (ChatRequest.mk msg none) f ∧
    ∃ r, chat db uid (ChatRequest.mk msg (some 0)) f = Except.ok r ∧
      r.response.conversation_id = db.nextConvId :=
  ⟨rfl,
   ⟨chatTurn (createConversation db uid).2 (createConversation db uid).1 msg f, rfl, rfl⟩⟩

theorem isSome_of_map_eq_some {α β : Type} {o : Option α} {f : α → β} {b : β}
    (h : o.map f = some b) : o.isSome := by
  cases o <;> simp_all

/-- Tables with the same id-to-title association give the same title on any
lookup by id. -/
theorem findConv_title_of_idTitle_eq {l1 l2 : List Conversation} (cid : Nat)
    (h : l1.map (fun c => (c.id, c.title)) = l2.map (fun c => (c.id, c.title))) :
    (l1.find? (fun c => c.id == cid)).map Conversation.title =
      (l2.find? (fun c => c.id == cid)).map Conversation.title := by
  induction l1 generalizing l2 with
  | nil =>
      cases l2 with
      | nil => rfl
      | cons b t2 => simp at h
  | cons a t ih =>
      cases l2 with
      | nil => simp at h
      | cons b t2 =>
          simp only [List.map_cons, List.cons.injEq] at h
          obtain ⟨hab, ht⟩ := h
          have hid : a.id = b.id := congrArg Prod.fst hab
          have htitle : a.title = b.title := congrArg Prod.snd hab
          by_cases hc : a.id == cid
          · rw [List.find?_cons_of_pos (p := fun c => c.id == cid) t hc,
              List.find?_cons_of_pos (p := fun c => c.id == cid) t2
                (show (b.id == cid) = true by rw [← hid]; exact hc)]
            simp [htitle]
          · rw [List.find?_cons_of_neg (p := fun c => c.id == cid) t hc,
              List.find?_cons_of_neg (p := fun c => c.id == cid) t2
                (show ¬(b.id == cid) = true by rw [← hid]; exact hc)]
            exact ih ht

/-- C1: on the turn whose history count immediately after appending the
user turn equals 1, the conversation's title becomes the new user text
unchanged when its length is at most 50 characters and exactly the first 50
characters followed by the 3-character "..." when it is longer; on every
turn where that count is not 1, the id-to-title association of the whole
conversations table is left unchanged. -/
theorem chat_title_rule (db : DB) (uid : Nat) (req : ChatRequest)
    (f : List CtxMsg → Except String String) (r : ChatOk)
    (hwf : ∀ m ∈ db.messages, m.conversation_id < db.nextConvId)
    (h : chat db uid req f = Except.ok r) :
    (r.context.length = 1 →
       (findConv r.db r.response.conversation_id).map Conversation.title =
         some (if req.message.length > 50
               then req.message.take 50 ++ "..." else req.message)) ∧
    (r.context.length ≠ 1 →
       r.db.conversations.map (fun c => (c.id, c.title)) =
         db.conversations.map (fun c => (c.id, c.title))) := by
  obtain ⟨conv, db0, hres, rfl⟩ := chat_ok_elim h
  constructor
  · intro h1
    have hmem := (resolveConv_ok_facts hres).1
    have hex : (findConv db0 conv.id).isSome := findConv_isSome_of_mem hmem
    have hcid : (chatTurn db0 conv req.message f).response.conversation_id = conv.id := rfl
    rw [hcid]
    exact chatTurn_title_of_first db0 conv req.message f h1 hex
  · intro h1
    rcases resolveConv_ok_elim hres with ⟨_, hdb, _⟩ | ⟨_, hc⟩
    · subst hdb
      exact chatTurn_idTitle_of_not_first _ _ _ _ h1
    · exfalso
      apply h1
      have h2 : conv = (createConversation db uid).1 := by rw [← hc]
      have h3 : db0 = (createConversation db uid).2 := by rw [← hc]
      subst h2
      subst h3
      rw [chatTurn_context_length]
      have hnil : ((createConversation db uid).2.messages.filter
          (fun m => m.conversation_id == (createConversation db uid).1.id)) = [] := by
        rw [List.filter_eq_nil_iff]
        intro m hm
        have hlt : m.conversation_id < db.nextConvId := hwf m hm
        simp only [beq_iff_eq]
        show ¬ m.conversation_id = db.nextConvId
        omega
      rw [hnil]
      rfl

theorem chat_title_rule_witness :
    (∀ m ∈ dbEx.messages, m.conversation_id < dbEx.nextConvId) ∧
    chat dbEx 1 (ChatRequest.mk "Hello there, how are you?" none)
      (fun _ => Except.ok "Hi!") =
      Except.ok (chatTurn (createConversation dbEx 1).2 (createConversation dbEx 1).1
        "Hello there, how are you?" (fun _ => Except.ok "Hi!")) ∧
    ((chatTurn (createConversation dbEx 1).2 (createConversation dbEx 1).1
        "Hello there, how are you?" (fun _ => Except.ok "Hi!")).context.length = 1 →
      (findConv (chatTurn (createConversation dbEx 1).2 (createConversation dbEx 1).1
          "Hello there, how are you?" (fun _ => Except.ok "Hi!")).db
        (chatTurn (createConversation dbEx 1).2 (createConversation dbEx 1).1
          "Hello there, how are you?" (fun _ => Except.ok "Hi!")).response.conversation_id).map
            Conversation.title =
        some (if ("Hello there, how are you?").length > 50
              then ("Hello there, how are you?").take 50 ++ "..."
              else "Hello there, how are you?")) :=
  ⟨by decide, rfl,
   (chat_title_rule dbEx 1 (ChatRequest.mk "Hello there, how are you?" none)
      (fun _ => Except.ok "Hi!")
      (chatTurn (createConversation dbEx 1).2 (createConversation dbEx 1).1
        "Hello there, how are you?" (fun _ => Except.ok "Hi!"))
      (by decide) rfl).1⟩

/-- C2: if the external model invocation fails with any error, the turn is
not aborted: `generate_response` folds the failure into a notice string,
that notice is persisted as the assistant message, the caller receives a
success response carrying the notice, the conversation id and the
assistant message id, and the conversation's message count grows by
exactly 2. -/
theorem chat_upstream_degraded (db : DB) (uid : Nat) (req : ChatRequest) (e : String)
    (hres : ∃ p, resolveConv db uid req.conversation_id = Except.ok p) :
    ∃ r, chat db uid req (fun _ => Except.error e) = Except.ok r ∧
      r.response.message = "Sorry, I encountered an error: " ++ e ∧
      r.aiMsg.content = "Sorry, I encountered an error: " ++ e ∧
      r.aiMsg ∈ r.db.messages ∧
      r.response.message_id = r.aiMsg.id ∧
      (r.db.messages.filter
          (fun m => m.conversation_id == r.response.conversation_id)).length =
        (db.messages.filter
          (fun m => m.conversation_id == r.response.conversation_id)).length + 2 := by
  obtain ⟨⟨conv, db0⟩, hres⟩ := hres
  refine ⟨chatTurn db0 conv req.message (fun _ => Except.error e), ?_, rfl, rfl, ?_, rfl, ?_⟩
  · unfold chat
    rw [hres]
  · rw [chatTurn_db_messages]
    simp
  · have hmsg : db0.messages = db.messages := (resolveConv_ok_facts hres).2.2.1
    rw [chatTurn_db_messages, hmsg, List.filter_append, List.length_append]
    have h2 : (([(chatTurn db0 conv req.message (fun _ => Except.error e)).userMsg,
        (chatTurn db0 conv req.message (fun _ => Except.error e)).aiMsg]).filter
          (fun m => m.conversation_id ==
            (chatTurn db0 conv req.message (fun _ => Except.error e)).response.conversation_id)).length = 2 := by
      simp [chatTurn_userMsg, chatTurn_aiMsg, chatTurn_response]
    rw [h2]

theorem chat_upstream_degraded_witness :
    (∃ p, resolveConv dbEx 1 (ChatRequest.mk "Hi" none).conversation_id = Except.ok p) ∧
    ∃ r, chat dbEx 1 (ChatRequest.mk "Hi" none) (fun _ => Except.error "boom") = Except.ok r ∧
      r.response.message = "Sorry, I encountered an error: " ++ "boom" ∧
      r.aiMsg.content = "Sorry, I encountered an error: " ++ "boom" ∧
      r.aiMsg ∈ r.db.messages ∧
      r.response.message_id = r.aiMsg.id ∧
      (r.db.messages.filter
          (fun m => m.conversation_id == r.response.conversation_id)).length =
        (dbEx.messages.filter
          (fun m => m.conversation_id == r.response.conversation_id)).length + 2 :=
  ⟨⟨((createConversation dbEx 1).1, (createConversation dbEx 1).2), rfl⟩,
   chat_upstream_degraded dbEx 1 (ChatRequest.mk "Hi" none) "boom"
     ⟨((createConversation dbEx 1).1, (createConversation dbEx 1).2), rfl⟩⟩

/-- C7: the context handed to the external model is exactly the full
message history of the conversation — including the just-appended user
turn — ordered by ascending `created_at` and projected element-wise to
role/content, with no truncation and no reordering. -/
theorem chat_context_full_history (db : DB) (uid : Nat) (req : ChatRequest)
    (f : List CtxMsg → Except String String) (r : ChatOk)
    (h : chat db uid req f = Except.ok r) :
    ∃ hist : List Message,
      hist.Perm ((db.messages ++ [r.userMsg]).filter
        (fun m => m.conversation_id == r.response.conversation_id)) ∧
      List.Sorted msgAsc hist ∧
      r.userMsg ∈ hist ∧
      r.context = hist.map (fun m => CtxMsg.mk m.role m.content) ∧
      r.context.length = hist.length := by
  obtain ⟨conv, db0, hres, rfl⟩ := chat_ok_elim h
  have hmsg : db0.messages = db.messages := (resolveConv_ok_facts hres).2.2.1
  refine ⟨listByConversation (appendMessage db0 conv.id "user" req.message).2 conv.id,
    ?_, listByConversation_sorted _ _, ?_, chatTurn_context db0 conv req.message f, ?_⟩
  · have hperm :=
      listByConversation_perm (appendMessage db0 conv.id "user" req.message).2 conv.id
    rw [appendMessage_messages, hmsg] at hperm
    exact hperm
  · show _ ∈ listByConversation _ _
    unfold listByConversation
    rw [List.mem_insertionSort, List.mem_filter]
    constructor
    · rw [appendMessage_messages]
      simp [appendMessage_fst, chatTurn_userMsg]
    · simp [chatTurn_userMsg]
  · rw [chatTurn_context, List.length_map]

theorem chat_context_full_history_witness :
    chat dbEx 1 (ChatRequest.mk "Hi" none) (fun _ => Except.ok "Hello!") =
      Except.ok (chatTurn (createConversation dbEx 1).2 (createConversation dbEx 1).1
        "Hi" (fun _ => Except.ok "Hello!")) ∧
    ∃ hist : List Message,
      hist.Perm ((dbEx.messages ++
          [(chatTurn (createConversation dbEx 1).2 (createConversation dbEx 1).1
            "Hi" (fun _ => Except.ok "Hello!")).userMsg]).filter
        (fun m => m.conversation_id ==
          (chatTurn (createConversation dbEx 1).2 (createConversation dbEx 1).1
            "Hi" (fun _ => Except.ok "Hello!")).response.conversation_id)) ∧
      List.Sorted msgAsc hist ∧
      (chatTurn (createConversation dbEx 1).2 (createConversation dbEx 1).1
        "Hi" (fun _ => Except.ok "Hello!")).userMsg ∈ hist ∧
      (chatTurn (createConversation dbEx 1).2 (createConversation dbEx 1).1
        "Hi" (fun _ => Except.ok "Hello!")).context =
        hist.map (fun m => CtxMsg.mk m.role m.content) ∧
      (chatTurn (createConversation dbEx 1).2 (createConversation dbEx 1).1
        "Hi" (fun _ => Except.ok "Hello!")).context.length = hist.length :=
  ⟨rfl,
   chat_context_full_history dbEx 1 (ChatRequest.mk "Hi" none)
     (fun _ => Except.ok "Hello!")
     (chatTurn (createConversation dbEx 1).2 (createConversation dbEx 1).1
       "Hi" (fun _ => Except.ok "Hello!")) rfl⟩

/-- C6: every message append touches the parent conversation, setting its
`updated_at` to the append time (`Touch`; the timestamp mechanics are
modelled from the spec because `database.py` is not under src/);
consequently a second chat turn addressed to the conversation of a first
turn leaves the title exactly as it was and moves the conversation's
`updated_at` to a strictly later time. -/
theorem append_touch_second_turn :
    (∀ (db : DB) (cid : Nat) (role content : String),
       (∃ c ∈ db.conversations, c.id = cid) →
       (findConv (appendMessage db cid role content).2 cid).map Conversation.updated_at =
         some db.clock) ∧
    (∀ (db : DB) (uid : Nat) (req1 : ChatRequest) (msg2 : String)
       (f1 f2 : List CtxMsg → Except String String) (r1 r2 : ChatOk),
       (∀ c ∈ db.conversations, 0 < c.id) → 0 < db.nextConvId →
       chat db uid req1 f1 = Except.ok r1 →
       chat r1.db uid (ChatRequest.mk msg2 (some r1.response.conversation_id)) f2 =
         Except.ok r2 →
       ((∃ t1 t2,
          (findConv r1.db r1.response.conversation_id).map Conversation.updated_at = some t1 ∧
          (findConv r2.db r1.response.conversation_id).map Conversation.updated_at = some t2 ∧
          t1 < t2) ∧
        (findConv r2.db r1.response.conversation_id).map Conversation.title =
          (findConv r1.db r1.response.conversation_id).map Conversation.title)) := by
  constructor
  · intro db cid role content hex
    rw [findConv_appendMessage]
    obtain ⟨c, hc, rfl⟩ := hex
    have hs : (findConv db c.id).isSome := findConv_isSome_of_mem hc
    cases hf : findConv db c.id with
    | none => rw [hf] at hs; simp at hs
    | some c0 => simp
  · intro db uid req1 msg2 f1 f2 r1 r2 hpos hnext h1 h2
    obtain ⟨conv, db0, hres1, rfl⟩ := chat_ok_elim h1
    have hcid : (chatTurn db0 conv req1.message f1).response.conversation_id = conv.id := rfl
    rw [hcid] at h2 ⊢
    obtain ⟨conv2, db0', hres2, rfl⟩ := chat_ok_elim h2
    have hconvpos : 0 < conv.id := by
      rcases resolveConv_ok_elim hres1 with ⟨_, _, hf⟩ | ⟨_, hc⟩
      · exact hpos conv (List.mem_of_find?_eq_some hf)
      · have h3 : conv = (createConversation db uid).1 := by rw [← hc]
        rw [h3]
        exact hnext
    rcases resolveConv_ok_elim hres2 with ⟨_, hdb', hf2⟩ | ⟨hfalse, _⟩
    · subst hdb'
      have hconv2id : conv2.id = conv.id := by
        have hp := List.find?_some hf2
        simp only [Bool.and_eq_true, beq_iff_eq] at hp
        exact hp.1
      have hex0 : (findConv db0 conv.id).isSome :=
        findConv_isSome_of_mem (resolveConv_ok_facts hres1).1
      have hup1 := chatTurn_updated_at db0 conv req1.message f1 hex0
      have hex1 : (findConv (chatTurn db0 conv req1.message f1).db conv2.id).isSome := by
        rw [hconv2id]
        exact isSome_of_map_eq_some hup1
      have hup2 := chatTurn_updated_at (chatTurn db0 conv req1.message f1).db conv2 msg2 f2 hex1
      rw [hconv2id] at hup2
      have hclock : (chatTurn db0 conv req1.message f1).db.clock = db0.clock + 2 :=
        chatTurn_db_clock db0 conv req1.message f1
      constructor
      · exact ⟨db0.clock + 1, (chatTurn db0 conv req1.message f1).db.clock + 1,
          hup1, hup2, by omega⟩
      · have hflen : ((chatTurn db0 conv req1.message f1).db.messages.filter
            (fun m => m.conversation_id == conv2.id)).length =
            (db0.messages.filter (fun m => m.conversation_id == conv2.id)).length + 2 := by
          rw [chatTurn_db_messages, List.filter_append, List.length_append]
          have h4 : (([(chatTurn db0 conv req1.message f1).userMsg,
              (chatTurn db0 conv req1.message f1).aiMsg]).filter
                (fun m => m.conversation_id == conv2.id)).length = 2 := by
            simp [chatTurn_userMsg, chatTurn_aiMsg, hconv2id]
          rw [h4]
        have hlen2 : (chatTurn (chatTurn db0 conv req1.message f1).db
            conv2 msg2 f2).context.length ≠ 1 := by
          rw [chatTurn_context_length, hflen]
          omega
        have hmap := chatTurn_idTitle_of_not_first
          (chatTurn db0 conv req1.message f1).db conv2 msg2 f2 hlen2
        exact findConv_title_of_idTitle_eq conv.id hmap
    · exfalso
      have hfalse2 : (conv.id != 0) = false := hfalse
      simp at hfalse2
      omega

/-- First witness turn: a fresh conversation for user 1. -/
def wr1 : ChatOk :=
  chatTurn (createConversation dbEx 1).2 (createConversation dbEx 1).1 "Hi"
    (fun _ => Except.ok "A")

/-- Second witness turn on the conversation of `wr1`. -/
def wr2 : ChatOk :=
  chatTurn wr1.db (Conversation.mk 2 1 "Hi" 5 7) "Again" (fun _ => Except.ok "B")

theorem append_touch_second_turn_witness :
    ((∃ c ∈ dbEx.conversations, c.id = 1) ∧
     (findConv (appendMessage dbEx 1 "user" "ping").2 1).map Conversation.updated_at =
       some dbEx.clock) ∧
    ((∀ c ∈ dbEx.conversations, 0 < c.id) ∧ 0 < dbEx.nextConvId ∧
     chat dbEx 1 (ChatRequest.mk "Hi" none) (fun _ => Except.ok "A") = Except.ok wr1 ∧
     chat wr1.db 1 (ChatRequest.mk "Again" (some wr1.response.conversation_id))
       (fun _ => Except.ok "B") = Except.ok wr2 ∧
     ((∃ t1 t2,
        (findConv wr1.db wr1.response.conversation_id).map Conversation.updated_at = some t1 ∧
        (findConv wr2.db wr1.response.conversation_id).map Conversation.updated_at = some t2 ∧
        t1 < t2) ∧
      (findConv wr2.db wr1.response.conversation_id).map Conversation.title =
        (findConv wr1.db wr1.response.conversation_id).map Conversation.title)) :=
  ⟨⟨⟨Conversation.mk 1 2 "New Conversation" 1 1, by decide, rfl⟩,
    append_touch_second_turn.1 dbEx 1 "user" "ping"
      ⟨Conversation.mk 1 2 "New Conversation" 1 1, by decide, rfl⟩⟩,
   by decide, by decide, rfl, rfl,
   append_touch_second_turn.2 dbEx 1 (ChatRequest.mk "Hi" none) "Again"
     (fun _ => Except.ok "A") (fun _ => Except.ok "B") wr1 wr2
     (by decide) (by decide) rfl rfl⟩
